import Mathlib

/-!
Shallow embedding of `Mergin/plugin.py`, the browser-panel plugin exposing the
Mergin project-hosting service inside the QGIS data source browser.

The file under verification is UI glue: it reads and writes the host settings
store (`QSettings`), calls an external HTTP client (`MerginClient`), and shows
dialogs.  The embedding makes every such interaction explicit:

* the settings store is an association list of string keys and string values,
  with `value` / `setValue` / `remove` mirroring `QSettings`;
* external collaborators (`QFileDialog.getExistingDirectory`, message-box
  replies, `auth_ok`, `mc.projects_list`, `mc.download_project`,
  `os.path.exists`, `find_qgis_files`) are supplied as explicit inputs —
  for the two client calls, as an outcome datum describing which exception,
  if any, the call raised;
* every observable side effect (cursor changes, dialogs, client calls,
  settings accesses, filesystem removal, loading a project into the host) is
  recorded in an `Effect` trace, in program order.

Python truthiness of `self.path` (both `None` and the empty string are falsy)
is modelled by `optTruthy`.
-/

namespace Mergin

/-- Python truthiness of an optional string: `None` and `""` are falsy. -/
def optTruthy : Option String → Bool
  | none => false
  | some s => s != ""

/-- The host settings store (`QSettings`), as an association list keyed by
setting name.  The earliest binding of a key wins. -/
abbrev Settings := List (String × String)

/-- Raw lookup: the stored value of `key`, if the key is present. -/
def Settings.valueOpt : Settings → String → Option String
  | [], _ => none
  | (k, v) :: rest, key => if k == key then some v else Settings.valueOpt rest key

/-- `QSettings.value(key, default)`: the stored value, or `default` when the
key is absent. -/
def Settings.value (s : Settings) (key dflt : String) : String :=
  (Settings.valueOpt s key).getD dflt

/-- `QSettings.remove(key)`: drop every binding of `key`. -/
def Settings.removeKey (s : Settings) (key : String) : Settings :=
  s.filter (fun p => p.1 != key)

/-- `QSettings.setValue(key, v)`: bind `key` to `v`, shadowing old bindings. -/
def Settings.setValue (s : Settings) (key v : String) : Settings :=
  (key, v) :: Settings.removeKey s key

/-- One observable side effect of the plugin, recorded in program order. -/
inductive Effect
  | getExistingDirectory
  | settingsRead (key : String)
  | settingsWrite (key value : String)
  | settingsRemove (key : String)
  | clientNew (url username password : String)
  | authCheck (url username password : String)
  | projectsList (filters : List String)
  | downloadProject (projectName targetDir : String)
  | setOverrideCursorWait
  | restoreOverrideCursor
  | msgQuestion (title text : String)
  | msgCritical (title text : String)
  | msgWarning (title text : String)
  | rmtree (path : String)
  | readProject (file : String)

deriving instance DecidableEq for Effect

/-- A reply to a yes/no `QMessageBox.question`. -/
inductive MsgReply
  | yes
  | no

deriving instance DecidableEq for MsgReply

/-- Outcome of `mc.download_project(name, target_dir)`: it returned normally,
or raised `URLError`, `ValueError`, or an exception of any other type. -/
inductive DownloadOutcome
  | success
  | urlError
  | valueError
  | otherError

deriving instance DecidableEq for DownloadOutcome

/-- In-memory state of a `MerginProjectItem`: the project name, the optional
local path (`self.path`), and the icon file name last passed to `setIcon`. -/
structure MerginProjectItem where
  project_name : String
  path : Option String
  icon : String

deriving instance DecidableEq for MerginProjectItem

/-- The settings key `'Mergin/localProjects/{}/path'.format(name)`. -/
def localProjectKey (name : String) : String :=
  "Mergin/localProjects/" ++ name ++ "/path"

/-- `MerginProjectItem.__init__` (plugin.py lines 51-64): read the persisted
local path, drop it if the directory no longer exists, and set the icon from
the resulting path.  Returns the constructed item and its effect trace. -/
def MerginProjectItem.init (settings : Settings) (osPathExists : String → Bool)
    (project_name : String) : MerginProjectItem × List Effect :=
  let path0 := Settings.valueOpt settings (localProjectKey project_name)
  let path1 :=
    if optTruthy path0 then
      if osPathExists (path0.getD "") then path0 else none
    else path0
  let icon := if optTruthy path1 then "folder-solid.svg" else "cloud-solid.svg"
  (⟨project_name, path1, icon⟩, [Effect.settingsRead (localProjectKey project_name)])

/-- Result of an operation on a project item: the item's new state, the new
settings store, and the effect trace of the call. -/
structure OpResult where
  item : MerginProjectItem
  settings : Settings
  effects : List Effect

deriving instance DecidableEq for OpResult

/-- `MerginProjectItem.open_project` (lines 116-125): do nothing without a
local path; load the single QGIS file when exactly one is found, otherwise
show a warning.  The item and settings are untouched, so only the effect
trace is returned.  `find_qgis_files` is the filesystem helper. -/
def MerginProjectItem.open_project (item : MerginProjectItem)
    (find_qgis_files : String → List String) : List Effect :=
  if !optTruthy item.path then []
  else
    let qgis_files := find_qgis_files (item.path.getD "")
    if qgis_files.length == 1 then
      [Effect.readProject (qgis_files.headD "")]
    else
      [Effect.msgWarning "Load QGIS project"
        ("Plugin can only load project with single QGIS file but " ++
          toString qgis_files.length ++ " found.")]

/-- `MerginProjectItem.download` (lines 66-96).  `parent_dir` is the directory
chosen in the file dialog (`""` when the dialog was cancelled), `outcome` is
what `mc.download_project` did, `openReply` answers the
"open project file?" question on success, and `find_qgis_files` serves the
nested `open_project` call.  On `URLError`/`ValueError` the handler restores
the cursor and shows a critical dialog; an exception of any other type
propagates out of the method, so the trace ends at the client call. -/
def MerginProjectItem.download (item : MerginProjectItem) (settings : Settings)
    (parent_dir : String) (outcome : DownloadOutcome) (openReply : MsgReply)
    (find_qgis_files : String → List String) : OpResult :=
  if parent_dir == "" then
    { item := item, settings := settings, effects := [Effect.getExistingDirectory] }
  else
    let target_dir := parent_dir ++ "/" ++ item.project_name
    let url := Settings.value settings "Mergin/URL" "https://public.cloudmergin.com"
    let username := Settings.value settings "Mergin/username" ""
    let password := Settings.value settings "Mergin/password" ""
    let eff0 : List Effect :=
      [Effect.getExistingDirectory,
       Effect.settingsRead "Mergin/URL",
       Effect.settingsRead "Mergin/username",
       Effect.settingsRead "Mergin/password",
       Effect.clientNew url username password,
       Effect.setOverrideCursorWait,
       Effect.downloadProject item.project_name target_dir]
    match outcome with
    | DownloadOutcome.success =>
      let settings1 :=
        Settings.setValue settings (localProjectKey item.project_name) target_dir
      let item1 : MerginProjectItem :=
        { project_name := item.project_name, path := some target_dir,
          icon := "folder-solid.svg" }
      let openEff :=
        if openReply == MsgReply.yes then
          MerginProjectItem.open_project item1 find_qgis_files
        else []
      { item := item1, settings := settings1,
        effects := eff0 ++
          [Effect.settingsWrite (localProjectKey item.project_name) target_dir,
           Effect.restoreOverrideCursor,
           Effect.msgQuestion "Project download"
             ("Your project " ++ item.project_name ++
              " has been successfully downloaded. Do you want to open project file?")]
          ++ openEff }
    | DownloadOutcome.urlError =>
      { item := item, settings := settings,
        effects := eff0 ++
          [Effect.restoreOverrideCursor,
           Effect.msgCritical "Project download"
             ("Failed to download your project " ++ item.project_name ++
              ".\nPlease make sure your Mergin settings are correct")] }
    | DownloadOutcome.valueError =>
      { item := item, settings := settings,
        effects := eff0 ++
          [Effect.restoreOverrideCursor,
           Effect.msgCritical "Project download"
             ("Failed to download your project " ++ item.project_name ++
              ".\nPlease make sure your Mergin settings are correct")] }
    | DownloadOutcome.otherError =>
      { item := item, settings := settings, effects := eff0 }

/-- `MerginProjectItem.remove_local_project` (lines 98-114): no-op without a
local path; otherwise ask for confirmation, and on Yes delete the directory
(when it still exists), remove the persisted path and reset path and icon. -/
def MerginProjectItem.remove_local_project (item : MerginProjectItem)
    (settings : Settings) (osPathExists : String → Bool) (reply : MsgReply) :
    OpResult :=
  if !optTruthy item.path then
    { item := item, settings := settings, effects := [] }
  else
    let effQ : List Effect :=
      [Effect.msgQuestion "Remove local project"
        ("Your local changes will be lost. Make sure your project is synchronised with server. \n\nDo you want to proceed?")]
    if reply == MsgReply.no then
      { item := item, settings := settings, effects := effQ }
    else
      let p := item.path.getD ""
      let effRm := if osPathExists p then [Effect.rmtree p] else []
      { item := { project_name := item.project_name, path := none,
                  icon := "cloud-solid.svg" },
        settings := Settings.removeKey settings (localProjectKey item.project_name),
        effects := effQ ++ effRm ++
          [Effect.settingsRemove (localProjectKey item.project_name)] }

/-- A context-menu action of a project item. -/
inductive ItemAction
  | download
  | removeLocal
  | openProject

deriving instance DecidableEq for ItemAction

/-- `MerginProjectItem.actions` (lines 127-141): `[open, remove-local]` when
the item has a local path, `[download]` otherwise. -/
def MerginProjectItem.actions (item : MerginProjectItem) : List ItemAction :=
  if optTruthy item.path then [ItemAction.openProject, ItemAction.removeLocal]
  else [ItemAction.download]

/-- A project record returned by `mc.projects_list`; only its `'name'` field
is consumed by the plugin. -/
structure ProjectInfo where
  name : String

deriving instance DecidableEq for ProjectInfo

/-- Outcome of `mc.projects_list(['valid_qgis'])`: the list returned, or the
exception raised (`URLError`, or any other exception with its message). -/
inductive ListOutcome
  | success (projects : List ProjectInfo)
  | urlError
  | otherError (errMessage : String)

/-- A child produced by the root item: a `QgsErrorItem` (message and item
path) or a `MerginProjectItem`. -/
inductive RootChild
  | errorNode (message : String) (path : String)
  | projectNode (item : MerginProjectItem)

deriving instance DecidableEq for RootChild

/-- The loop of `createChildren` (lines 175-181): construct one
`MerginProjectItem` per listed project, in order, accumulating the
constructors' effect traces. -/
def initChildren (settings : Settings) (osPathExists : String → Bool) :
    List ProjectInfo → List RootChild × List Effect
  | [] => ([], [])
  | project :: rest =>
    let r := MerginProjectItem.init settings osPathExists project.name
    let tail := initChildren settings osPathExists rest
    (RootChild.projectNode r.1 :: tail.1, r.2 ++ tail.2)

/-- `MerginRootItem.createChildren` (lines 151-181): read the connection
settings, check `auth_ok`, list the projects, and return one project item
per project — or a single `QgsErrorItem` on auth failure, `URLError`, or any
other exception.  Returns the children and the effect trace. -/
def MerginRootItem.createChildren (settings : Settings)
    (auth_ok : String → String → String → Bool) (listOutcome : ListOutcome)
    (osPathExists : String → Bool) : List RootChild × List Effect :=
  let url := Settings.value settings "Mergin/URL" "https://public.cloudmergin.com"
  let username := Settings.value settings "Mergin/username" ""
  let password := Settings.value settings "Mergin/password" ""
  let eff0 : List Effect :=
    [Effect.settingsRead "Mergin/URL",
     Effect.settingsRead "Mergin/username",
     Effect.settingsRead "Mergin/password",
     Effect.authCheck url username password]
  if !auth_ok url username password then
    ([RootChild.errorNode "Failed to get projects from server" "/Mergin/error"], eff0)
  else
    let eff1 := eff0 ++
      [Effect.clientNew url username password,
       Effect.projectsList ["valid_qgis"]]
    match listOutcome with
    | ListOutcome.urlError =>
      ([RootChild.errorNode "Failed to get projects from server" "/Mergin/error"], eff1)
    | ListOutcome.otherError err =>
      ([RootChild.errorNode ("Error: " ++ err) "/Mergin/error"], eff1)
    | ListOutcome.success projects =>
      let results := initChildren settings osPathExists projects
      (results.1, eff1 ++ results.2)

/-- In-memory state of the `MerginRootItem` as constructed (line 147-149):
`QgsDataCollectionItem.__init__(self, None, "Mergin", "/Mergin")`. -/
structure MerginRootItem where
  name : String
  path : String

deriving instance DecidableEq for MerginRootItem

/-- The root item the constructor builds. -/
def MerginRootItem.new : MerginRootItem :=
  { name := "Mergin", path := "/Mergin" }

/-- `DataItemProvider.createDataItem(path, parentItem)` (lines 217-223): a
fresh root item when `parentItem` is absent, `None` otherwise.  The `path`
argument is ignored by the source. -/
def DataItemProvider.createDataItem (path : String) (parentItem : Option Unit) :
    Option MerginRootItem :=
  if parentItem.isNone then some MerginRootItem.new else none

/-- The settings keys an effect trace reads, writes or removes. -/
def settingsKeysTouched : List Effect → List String
  | [] => []
  | Effect.settingsRead k :: rest => k :: settingsKeysTouched rest
  | Effect.settingsWrite k _ :: rest => k :: settingsKeysTouched rest
  | Effect.settingsRemove k :: rest => k :: settingsKeysTouched rest
  | _ :: rest => settingsKeysTouched rest

/-- The three connection settings keys. -/
def connectionKeys : List String :=
  ["Mergin/URL", "Mergin/username", "Mergin/password"]

/-- Whether a trace shows a critical message box. -/
def hasCriticalBox (effects : List Effect) : Bool :=
  effects.any (fun e =>
    match e with
    | Effect.msgCritical _ _ => true
    | _ => false)

/-- Whether a trace restores the override cursor. -/
def hasRestoreCursor (effects : List Effect) : Bool :=
  effects.any (fun e =>
    match e with
    | Effect.restoreOverrideCursor => true
    | _ => false)

/-- How many times a trace calls `mc.download_project`. -/
def countDownloadCalls (effects : List Effect) : Nat :=
  (effects.filter (fun e =>
    match e with
    | Effect.downloadProject _ _ => true
    | _ => false)).length

/-- The arguments of the first `MerginClient(...)` construction in a trace. -/
def firstClientNew (effects : List Effect) : Option (String × String × String) :=
  effects.findSome? (fun e =>
    match e with
    | Effect.clientNew u n p => some (u, n, p)
    | _ => none)

/-- The arguments of the first `auth_ok(...)` call in a trace. -/
def firstAuthCheck (effects : List Effect) : Option (String × String × String) :=
  effects.findSome? (fun e =>
    match e with
    | Effect.authCheck u n p => some (u, n, p)
    | _ => none)

/-! ### Helper lemmas about the settings store -/

theorem Settings.valueOpt_setValue_self (s : Settings) (k v : String) :
    Settings.valueOpt (Settings.setValue s k v) k = some v := by
  simp [Settings.setValue, Settings.valueOpt]

theorem Settings.valueOpt_removeKey_self (s : Settings) (k : String) :
    Settings.valueOpt (Settings.removeKey s k) k = none := by
  induction s with
  | nil => rfl
  | cons hd tl ih =>
    rw [Settings.removeKey, List.filter_cons]
    by_cases h : hd.1 = k
    · simpa [Settings.removeKey, h] using ih
    · simpa [Settings.removeKey, Settings.valueOpt, h] using ih

/-! ### Claim theorems -/

/-- C6: `DataItemProvider.createDataItem` returns a Mergin root item exactly
when called without a parent item, and `None` for every call that has a
parent item. -/
theorem C6_createDataItem_root_only (path : String) :
    DataItemProvider.createDataItem path none = some MerginRootItem.new ∧
    ∀ u : Unit, DataItemProvider.createDataItem path (some u) = none := by
  constructor
  · rfl
  · intro u; rfl

/-- C4 counterexample: for an item with no local path, the action list is
just `[download]`; it does not expose the open action (nor remove-local), so
the action list does not contain all three actions regardless of the
local-path state. -/
theorem C4_counterexample :
    MerginProjectItem.actions ⟨"Survey", none, "cloud-solid.svg"⟩ =
      [ItemAction.download] ∧
    ¬ (ItemAction.download ∈
        MerginProjectItem.actions ⟨"Survey", none, "cloud-solid.svg"⟩ ∧
       ItemAction.removeLocal ∈
        MerginProjectItem.actions ⟨"Survey", none, "cloud-solid.svg"⟩ ∧
       ItemAction.openProject ∈
        MerginProjectItem.actions ⟨"Survey", none, "cloud-solid.svg"⟩) := by
  decide

/-- C4 (amended): the context-menu action list exposes open and remove-local
exactly when the item has a (truthy) local path, and download exactly when it
does not; in particular it never exposes all three at once. -/
theorem C4_actions_by_path_state (item : MerginProjectItem) :
    (ItemAction.openProject ∈ MerginProjectItem.actions item ↔
      optTruthy item.path = true) ∧
    (ItemAction.removeLocal ∈ MerginProjectItem.actions item ↔
      optTruthy item.path = true) ∧
    (ItemAction.download ∈ MerginProjectItem.actions item ↔
      optTruthy item.path = false) := by
  cases h : optTruthy item.path <;> simp [MerginProjectItem.actions, h]

/-- C2: when the persisted setting `Mergin/localProjects/<name>/path` holds a
(nonempty) path whose directory no longer exists, the constructor clears the
stale path: the constructed item has no local path, carries the cloud icon,
and is treated as pathless. -/
theorem C2_stale_path_cleared (settings : Settings) (fs : String → Bool)
    (name p : String)
    (hp : Settings.valueOpt settings (localProjectKey name) = some p)
    (hne : p ≠ "") (hex : fs p = false) :
    (MerginProjectItem.init settings fs name).1.path = none ∧
    (MerginProjectItem.init settings fs name).1.icon = "cloud-solid.svg" ∧
    optTruthy (MerginProjectItem.init settings fs name).1.path = false := by
  simp [MerginProjectItem.init, hp, optTruthy, hne, hex]

/-- C2 witness: a concrete store whose recorded path `/gone/Survey` no longer
exists on disk. -/
theorem C2_stale_path_cleared_witness :
    (MerginProjectItem.init [("Mergin/localProjects/Survey/path", "/gone/Survey")]
      (fun _ => false) "Survey").1.path = none ∧
    (MerginProjectItem.init [("Mergin/localProjects/Survey/path", "/gone/Survey")]
      (fun _ => false) "Survey").1.icon = "cloud-solid.svg" ∧
    optTruthy (MerginProjectItem.init
      [("Mergin/localProjects/Survey/path", "/gone/Survey")]
      (fun _ => false) "Survey").1.path = false :=
  C2_stale_path_cleared [("Mergin/localProjects/Survey/path", "/gone/Survey")]
    (fun _ => false) "Survey" "/gone/Survey" (by decide) (by decide) rfl

/-- C8: `open_project` loads a project file into the host exactly when the
item has a local path and `find_qgis_files` returns exactly one file there;
with a path but a file count other than one it shows a warning and loads
nothing; without a path it does nothing at all. -/
theorem C8_open_project_single_file (item : MerginProjectItem)
    (find_qgis_files : String → List String) :
    (optTruthy item.path = false →
      MerginProjectItem.open_project item find_qgis_files = []) ∧
    (optTruthy item.path = true →
      (find_qgis_files (item.path.getD "")).length = 1 →
      MerginProjectItem.open_project item find_qgis_files =
        [Effect.readProject ((find_qgis_files (item.path.getD "")).headD "")]) ∧
    (optTruthy item.path = true →
      (find_qgis_files (item.path.getD "")).length ≠ 1 →
      MerginProjectItem.open_project item find_qgis_files =
        [Effect.msgWarning "Load QGIS project"
          ("Plugin can only load project with single QGIS file but " ++
            toString (find_qgis_files (item.path.getD "")).length ++ " found.")]) := by
  refine ⟨fun h => ?_, fun h h1 => ?_, fun h h1 => ?_⟩
  · simp [MerginProjectItem.open_project, h]
  · simp [MerginProjectItem.open_project, h, h1]
  · simp [MerginProjectItem.open_project, h, h1]

/-- C8 witness: with a local path and exactly one discovered QGIS file, that
file is loaded; with two files a warning is shown instead. -/
theorem C8_open_project_single_file_witness :
    MerginProjectItem.open_project ⟨"Survey", some "/data/Survey", "folder-solid.svg"⟩
      (fun _ => ["/data/Survey/map.qgs"]) =
      [Effect.readProject "/data/Survey/map.qgs"] ∧
    MerginProjectItem.open_project ⟨"Survey", some "/data/Survey", "folder-solid.svg"⟩
      (fun _ => ["/data/Survey/a.qgs", "/data/Survey/b.qgs"]) =
      [Effect.msgWarning "Load QGIS project"
        "Plugin can only load project with single QGIS file but 2 found."] :=
  ⟨(C8_open_project_single_file ⟨"Survey", some "/data/Survey", "folder-solid.svg"⟩
      (fun _ => ["/data/Survey/map.qgs"])).2.1 (by decide) (by decide),
   (C8_open_project_single_file ⟨"Survey", some "/data/Survey", "folder-solid.svg"⟩
      (fun _ => ["/data/Survey/a.qgs", "/data/Survey/b.qgs"])).2.2 (by decide) (by decide)⟩

/-- C5: the icon and the persisted path stay consistent with the local-path
state: the constructor picks the folder icon exactly for a truthy path; a
successful download stores the target directory under
`Mergin/localProjects/<name>/path`, sets the item's path to it and the folder
icon; a completed remove-local removes the setting, clears the path and sets
the cloud icon. -/
theorem C5_icon_path_consistency (settings : Settings) (fs : String → Bool)
    (name parent_dir : String) (item : MerginProjectItem) (openReply : MsgReply)
    (find_qgis_files : String → List String) :
    ((MerginProjectItem.init settings fs name).1.icon =
      if optTruthy (MerginProjectItem.init settings fs name).1.path = true
      then "folder-solid.svg" else "cloud-solid.svg") ∧
    (parent_dir ≠ "" →
      Settings.valueOpt
        (MerginProjectItem.download item settings parent_dir
          DownloadOutcome.success openReply find_qgis_files).settings
        (localProjectKey item.project_name) =
          some (parent_dir ++ "/" ++ item.project_name) ∧
      (MerginProjectItem.download item settings parent_dir
        DownloadOutcome.success openReply find_qgis_files).item.path =
          some (parent_dir ++ "/" ++ item.project_name) ∧
      (MerginProjectItem.download item settings parent_dir
        DownloadOutcome.success openReply find_qgis_files).item.icon =
          "folder-solid.svg") ∧
    (optTruthy item.path = true →
      Settings.valueOpt
        (MerginProjectItem.remove_local_project item settings fs MsgReply.yes).settings
        (localProjectKey item.project_name) = none ∧
      (MerginProjectItem.remove_local_project item settings fs MsgReply.yes).item.path =
        none ∧
      (MerginProjectItem.remove_local_project item settings fs MsgReply.yes).item.icon =
        "cloud-solid.svg") := by
  refine ⟨?_, fun hd => ?_, fun hp => ?_⟩
  · simp [MerginProjectItem.init]
  · simp [MerginProjectItem.download, hd, Settings.valueOpt_setValue_self]
  · simp [MerginProjectItem.remove_local_project, hp,
      Settings.valueOpt_removeKey_self]

/-- C5 witness: a concrete successful download into `/home/u/Survey` and a
concrete completed remove-local, each leaving setting, path and icon
consistent. -/
theorem C5_icon_path_consistency_witness :
    (Settings.valueOpt
      (MerginProjectItem.download ⟨"Survey", none, "cloud-solid.svg"⟩ []
        "/home/u" DownloadOutcome.success MsgReply.no (fun _ => [])).settings
      (localProjectKey "Survey") = some "/home/u/Survey") ∧
    (Settings.valueOpt
      (MerginProjectItem.remove_local_project
        ⟨"Survey", some "/data/Survey", "folder-solid.svg"⟩
        [("Mergin/localProjects/Survey/path", "/data/Survey")]
        (fun _ => true) MsgReply.yes).settings
      (localProjectKey "Survey") = none) :=
  ⟨((C5_icon_path_consistency [] (fun _ => false) "Survey" "/home/u"
      ⟨"Survey", none, "cloud-solid.svg"⟩ MsgReply.no (fun _ => [])).2.1
      (by decide)).1,
   ((C5_icon_path_consistency [("Mergin/localProjects/Survey/path", "/data/Survey")]
      (fun _ => true) "Survey" "/home/u"
      ⟨"Survey", some "/data/Survey", "folder-solid.svg"⟩ MsgReply.yes
      (fun _ => [])).2.2 (by decide)).1⟩

/-- C9: when `download_project` raises `URLError` or `ValueError`, the
failure leaves the item's state intact: the settings store, the item's path
and its icon are all unchanged. -/
theorem C9_download_failure_atomic (item : MerginProjectItem) (settings : Settings)
    (parent_dir : String) (outcome : DownloadOutcome) (openReply : MsgReply)
    (find_qgis_files : String → List String)
    (h : outcome = DownloadOutcome.urlError ∨ outcome = DownloadOutcome.valueError) :
    (MerginProjectItem.download item settings parent_dir outcome openReply
      find_qgis_files).settings = settings ∧
    (MerginProjectItem.download item settings parent_dir outcome openReply
      find_qgis_files).item.path = item.path ∧
    (MerginProjectItem.download item settings parent_dir outcome openReply
      find_qgis_files).item.icon = item.icon := by
  rcases h with h | h <;> subst h <;> by_cases hd : parent_dir = "" <;>
    simp [MerginProjectItem.download, hd]

/-- C9 witness: a concrete `URLError` failure changes nothing. -/
theorem C9_download_failure_atomic_witness :
    (MerginProjectItem.download ⟨"Survey", none, "cloud-solid.svg"⟩
      [("Mergin/URL", "https://example.com")] "/home/u" DownloadOutcome.urlError
      MsgReply.yes (fun _ => [])).settings = [("Mergin/URL", "https://example.com")] ∧
    (MerginProjectItem.download ⟨"Survey", none, "cloud-solid.svg"⟩
      [("Mergin/URL", "https://example.com")] "/home/u" DownloadOutcome.urlError
      MsgReply.yes (fun _ => [])).item.path = none ∧
    (MerginProjectItem.download ⟨"Survey", none, "cloud-solid.svg"⟩
      [("Mergin/URL", "https://example.com")] "/home/u" DownloadOutcome.urlError
      MsgReply.yes (fun _ => [])).item.icon = "cloud-solid.svg" :=
  C9_download_failure_atomic ⟨"Survey", none, "cloud-solid.svg"⟩
    [("Mergin/URL", "https://example.com")] "/home/u" DownloadOutcome.urlError
    MsgReply.yes (fun _ => []) (Or.inl rfl)

/-- C3 counterexample: when `download_project` raises an exception that is
neither `URLError` nor `ValueError`, the download has been attempted (and
failed) but no critical dialog is shown and the override cursor is never
restored — the `except` clause at lines 92-96 only catches those two types. -/
theorem C3_counterexample :
    countDownloadCalls (MerginProjectItem.download ⟨"Survey", none, "cloud-solid.svg"⟩
      [] "/home/u" DownloadOutcome.otherError MsgReply.yes (fun _ => [])).effects = 1 ∧
    hasCriticalBox (MerginProjectItem.download ⟨"Survey", none, "cloud-solid.svg"⟩
      [] "/home/u" DownloadOutcome.otherError MsgReply.yes (fun _ => [])).effects = false ∧
    hasRestoreCursor (MerginProjectItem.download ⟨"Survey", none, "cloud-solid.svg"⟩
      [] "/home/u" DownloadOutcome.otherError MsgReply.yes (fun _ => [])).effects = false := by
  decide

/-- C3 (amended): when `download_project` raises `URLError` or `ValueError`,
a critical dialog is shown, the wait cursor set at the start of the attempt
is restored, and the download is not retried: `download_project` is called
exactly once in the trace. -/
theorem C3_download_failure_dialog (item : MerginProjectItem) (settings : Settings)
    (parent_dir : String) (outcome : DownloadOutcome) (openReply : MsgReply)
    (find_qgis_files : String → List String) (hd : parent_dir ≠ "")
    (h : outcome = DownloadOutcome.urlError ∨ outcome = DownloadOutcome.valueError) :
    hasCriticalBox (MerginProjectItem.download item settings parent_dir outcome
      openReply find_qgis_files).effects = true ∧
    hasRestoreCursor (MerginProjectItem.download item settings parent_dir outcome
      openReply find_qgis_files).effects = true ∧
    Effect.setOverrideCursorWait ∈ (MerginProjectItem.download item settings
      parent_dir outcome openReply find_qgis_files).effects ∧
    countDownloadCalls (MerginProjectItem.download item settings parent_dir outcome
      openReply find_qgis_files).effects = 1 := by
  rcases h with h | h <;> subst h <;>
    simp [MerginProjectItem.download, hd, hasCriticalBox, hasRestoreCursor,
      countDownloadCalls, List.filter]

/-- C3 witness: a concrete `ValueError` failure shows the dialog, restores
the cursor and attempts the download exactly once. -/
theorem C3_download_failure_dialog_witness :
    hasCriticalBox (MerginProjectItem.download ⟨"Survey", none, "cloud-solid.svg"⟩
      [] "/home/u" DownloadOutcome.valueError MsgReply.yes (fun _ => [])).effects = true ∧
    hasRestoreCursor (MerginProjectItem.download ⟨"Survey", none, "cloud-solid.svg"⟩
      [] "/home/u" DownloadOutcome.valueError MsgReply.yes (fun _ => [])).effects = true ∧
    Effect.setOverrideCursorWait ∈ (MerginProjectItem.download
      ⟨"Survey", none, "cloud-solid.svg"⟩ [] "/home/u" DownloadOutcome.valueError
      MsgReply.yes (fun _ => [])).effects ∧
    countDownloadCalls (MerginProjectItem.download ⟨"Survey", none, "cloud-solid.svg"⟩
      [] "/home/u" DownloadOutcome.valueError MsgReply.yes (fun _ => [])).effects = 1 :=
  C3_download_failure_dialog ⟨"Survey", none, "cloud-solid.svg"⟩ [] "/home/u"
    DownloadOutcome.valueError MsgReply.yes (fun _ => []) (by decide) (Or.inr rfl)

/-! ### Helper lemmas about traces -/

theorem initChildren_fst (settings : Settings) (fs : String → Bool)
    (ps : List ProjectInfo) :
    (initChildren settings fs ps).1 =
      ps.map (fun project =>
        RootChild.projectNode (MerginProjectItem.init settings fs project.name).1) := by
  induction ps with
  | nil => rfl
  | cons hd tl ih => simp [initChildren, ih]

theorem settingsKeysTouched_append (a b : List Effect) :
    settingsKeysTouched (a ++ b) = settingsKeysTouched a ++ settingsKeysTouched b := by
  induction a with
  | nil => rfl
  | cons e rest ih => cases e <;> simp [settingsKeysTouched, ih]

theorem settingsKeysTouched_open_project (item : MerginProjectItem)
    (find_qgis_files : String → List String) :
    settingsKeysTouched (MerginProjectItem.open_project item find_qgis_files) = [] := by
  by_cases h : optTruthy item.path <;>
    by_cases h1 : (find_qgis_files (item.path.getD "")).length = 1 <;>
      simp [MerginProjectItem.open_project, h, h1, settingsKeysTouched]

theorem settingsKeysTouched_initChildren (settings : Settings) (fs : String → Bool)
    (ps : List ProjectInfo) :
    settingsKeysTouched (initChildren settings fs ps).2 =
      ps.map (fun project => localProjectKey project.name) := by
  induction ps with
  | nil => rfl
  | cons hd tl ih =>
    simp [initChildren, MerginProjectItem.init, settingsKeysTouched_append,
      settingsKeysTouched, ih]

/-- C1 counterexample: authentication failure and a network failure
(`URLError`) during listing produce the very same user-visible error node —
message "Failed to get projects from server" at item path "/Mergin/error" —
so the three failure kinds are not each mapped to a distinct error node. -/
theorem C1_counterexample :
    (MerginRootItem.createChildren [] (fun _ _ _ => false) ListOutcome.urlError
      (fun _ => false)).1 =
      [RootChild.errorNode "Failed to get projects from server" "/Mergin/error"] ∧
    (MerginRootItem.createChildren [] (fun _ _ _ => true) ListOutcome.urlError
      (fun _ => false)).1 =
      [RootChild.errorNode "Failed to get projects from server" "/Mergin/error"] ∧
    (MerginRootItem.createChildren [] (fun _ _ _ => false) ListOutcome.urlError
      (fun _ => false)).1 =
      (MerginRootItem.createChildren [] (fun _ _ _ => true) ListOutcome.urlError
        (fun _ => false)).1 := by
  refine ⟨rfl, rfl, rfl⟩

/-- C1 (amended): on success `createChildren` returns exactly one project
child per listed project, in order; on any failure it returns exactly one
error placeholder node.  Authentication failure and `URLError` during
listing map to the same node ("Failed to get projects from server"), while
any other exception maps to a node "Error: <message>", which differs from
the former node. -/
theorem C1_createChildren_children (settings : Settings)
    (auth_ok : String → String → String → Bool) (lo : ListOutcome)
    (fs : String → Bool) (url username password : String)
    (hu : Settings.value settings "Mergin/URL" "https://public.cloudmergin.com" = url)
    (hn : Settings.value settings "Mergin/username" "" = username)
    (hp : Settings.value settings "Mergin/password" "" = password) :
    (auth_ok url username password = false →
      (MerginRootItem.createChildren settings auth_ok lo fs).1 =
        [RootChild.errorNode "Failed to get projects from server" "/Mergin/error"]) ∧
    (auth_ok url username password = true → lo = ListOutcome.urlError →
      (MerginRootItem.createChildren settings auth_ok lo fs).1 =
        [RootChild.errorNode "Failed to get projects from server" "/Mergin/error"]) ∧
    (auth_ok url username password = true →
      ∀ e, lo = ListOutcome.otherError e →
      (MerginRootItem.createChildren settings auth_ok lo fs).1 =
        [RootChild.errorNode ("Error: " ++ e) "/Mergin/error"] ∧
      "Error: " ++ e ≠ "Failed to get projects from server") ∧
    (auth_ok url username password = true →
      ∀ ps, lo = ListOutcome.success ps →
      (MerginRootItem.createChildren settings auth_ok lo fs).1 =
        ps.map (fun project =>
          RootChild.projectNode
            (MerginProjectItem.init settings fs project.name).1)) := by
  subst hu; subst hn; subst hp
  refine ⟨fun ha => ?_, fun ha hlo => ?_, fun ha e hlo => ⟨?_, ?_⟩,
    fun ha ps hlo => ?_⟩
  · simp [MerginRootItem.createChildren, ha]
  · subst hlo; simp [MerginRootItem.createChildren, ha]
  · subst hlo; simp [MerginRootItem.createChildren, ha]
  · intro hcontra
    have h2 := congrArg String.data hcontra
    simp [String.data_append] at h2
  · subst hlo
    simp [MerginRootItem.createChildren, ha, initChildren_fst]

/-- C1 witness: authentication passes and the server lists two projects;
the root gets exactly the two corresponding project children, in order. -/
theorem C1_createChildren_children_witness :
    (MerginRootItem.createChildren [] (fun _ _ _ => true)
      (ListOutcome.success [⟨"Survey"⟩, ⟨"Parks"⟩]) (fun _ => false)).1 =
      [RootChild.projectNode
        (MerginProjectItem.init [] (fun _ => false) "Survey").1,
       RootChild.projectNode
        (MerginProjectItem.init [] (fun _ => false) "Parks").1] :=
  (C1_createChildren_children [] (fun _ _ _ => true)
    (ListOutcome.success [⟨"Survey"⟩, ⟨"Parks"⟩]) (fun _ => false)
    "https://public.cloudmergin.com" "" "" rfl rfl rfl).2.2.2 rfl
    [⟨"Survey"⟩, ⟨"Parks"⟩] rfl

/-- C7: every settings key that any operation of the file reads, writes or
removes is one of `Mergin/URL`, `Mergin/username`, `Mergin/password`, or
`Mergin/localProjects/<name>/path` — where `<name>` is the operation's
project name (for root expansion: one of the listed project names). -/
theorem C7_settings_key_frame (settings : Settings) (fs : String → Bool)
    (name parent_dir : String) (item : MerginProjectItem)
    (outcome : DownloadOutcome) (openReply reply : MsgReply)
    (find_qgis_files : String → List String)
    (auth_ok : String → String → String → Bool) (lo : ListOutcome) :
    (∀ k ∈ settingsKeysTouched (MerginProjectItem.init settings fs name).2,
      k ∈ connectionKeys ∨ k = localProjectKey name) ∧
    (∀ k ∈ settingsKeysTouched (MerginProjectItem.download item settings
        parent_dir outcome openReply find_qgis_files).effects,
      k ∈ connectionKeys ∨ k = localProjectKey item.project_name) ∧
    (∀ k ∈ settingsKeysTouched (MerginProjectItem.remove_local_project item
        settings fs reply).effects,
      k ∈ connectionKeys ∨ k = localProjectKey item.project_name) ∧
    (settingsKeysTouched
      (MerginProjectItem.open_project item find_qgis_files) = []) ∧
    (∀ k ∈ settingsKeysTouched
        (MerginRootItem.createChildren settings auth_ok lo fs).2,
      k ∈ connectionKeys ∨ ∃ n, k = localProjectKey n) := by
  refine ⟨?_, ?_, ?_, settingsKeysTouched_open_project item find_qgis_files, ?_⟩
  · simp [MerginProjectItem.init, settingsKeysTouched]
  · by_cases hd : parent_dir = ""
    · simp [MerginProjectItem.download, hd, settingsKeysTouched]
    · cases outcome <;> cases openReply <;>
        simp [MerginProjectItem.download, hd, settingsKeysTouched_append,
          settingsKeysTouched_open_project, settingsKeysTouched, connectionKeys]
  · by_cases hp : optTruthy item.path = true
    · cases reply
      · by_cases hf : fs (item.path.getD "") = true <;>
          simp [MerginProjectItem.remove_local_project, hp, hf,
            settingsKeysTouched_append, settingsKeysTouched, connectionKeys]
      · simp [MerginProjectItem.remove_local_project, hp, settingsKeysTouched]
    · simp only [Bool.not_eq_true] at hp
      simp [MerginProjectItem.remove_local_project, hp, settingsKeysTouched]
  · by_cases ha :
      auth_ok (Settings.value settings "Mergin/URL" "https://public.cloudmergin.com")
        (Settings.value settings "Mergin/username" "")
        (Settings.value settings "Mergin/password" "") = true
    · cases lo <;>
        simp [MerginRootItem.createChildren, ha, settingsKeysTouched_append,
          settingsKeysTouched_initChildren, settingsKeysTouched, connectionKeys]
    · simp only [Bool.not_eq_true] at ha
      simp [MerginRootItem.createChildren, ha, settingsKeysTouched, connectionKeys]

/-- C7 witness: in a concrete successful download the persisted-path key the
operation writes is the item's own `Mergin/localProjects/Survey/path`. -/
theorem C7_settings_key_frame_witness :
    localProjectKey "Survey" ∈ connectionKeys ∨
    localProjectKey "Survey" = localProjectKey "Survey" :=
  (C7_settings_key_frame [] (fun _ => false) "Survey" "/home/u"
    ⟨"Survey", none, "cloud-solid.svg"⟩ DownloadOutcome.success MsgReply.no
    MsgReply.no (fun _ => []) (fun _ _ _ => true)
    (ListOutcome.success [])).2.1 (localProjectKey "Survey") (by decide)

/-- C10: with `Mergin/URL`, `Mergin/username` and `Mergin/password` all
absent from the settings store, the client constructed by `download` and the
`auth_ok` check performed by `createChildren` both use the same default
connection: URL `https://public.cloudmergin.com`, empty username, empty
password. -/
theorem C10_shared_connection_defaults (settings : Settings)
    (item : MerginProjectItem) (parent_dir : String) (outcome : DownloadOutcome)
    (openReply : MsgReply) (find_qgis_files : String → List String)
    (auth_ok : String → String → String → Bool) (lo : ListOutcome)
    (fs : String → Bool)
    (hurl : Settings.valueOpt settings "Mergin/URL" = none)
    (huser : Settings.valueOpt settings "Mergin/username" = none)
    (hpass : Settings.valueOpt settings "Mergin/password" = none)
    (hd : parent_dir ≠ "") :
    firstClientNew (MerginProjectItem.download item settings parent_dir outcome
      openReply find_qgis_files).effects =
      some ("https://public.cloudmergin.com", "", "") ∧
    firstAuthCheck (MerginRootItem.createChildren settings auth_ok lo fs).2 =
      some ("https://public.cloudmergin.com", "", "") := by
  constructor
  · cases outcome <;>
      simp [MerginProjectItem.download, hd, Settings.value, hurl, huser, hpass,
        firstClientNew]
  · rw [MerginRootItem.createChildren]
    split
    · simp [Settings.value, hurl, huser, hpass, firstAuthCheck]
    · cases lo <;>
        simp [Settings.value, hurl, huser, hpass, firstAuthCheck]

/-- C10 witness: with an empty settings store, both operations use the
default connection triple. -/
theorem C10_shared_connection_defaults_witness :
    firstClientNew (MerginProjectItem.download ⟨"Survey", none, "cloud-solid.svg"⟩
      [] "/home/u" DownloadOutcome.success MsgReply.no (fun _ => [])).effects =
      some ("https://public.cloudmergin.com", "", "") ∧
    firstAuthCheck (MerginRootItem.createChildren [] (fun _ _ _ => true)
      ListOutcome.urlError (fun _ => false)).2 =
      some ("https://public.cloudmergin.com", "", "") :=
  C10_shared_connection_defaults [] ⟨"Survey", none, "cloud-solid.svg"⟩
    "/home/u" DownloadOutcome.success MsgReply.no (fun _ => [])
    (fun _ _ _ => true) ListOutcome.urlError (fun _ => false)
    rfl rfl rfl (by decide)

end Mergin
